import Mathlib

/-!
Shallow embedding of the `herr-log` logging library (`src/herrlog.hh`,
version 1.0) and verification of its documented behaviour.

The embedding models:
  * the `LogType` bitflag class and its `|` / `&` operators,
  * the variadic placeholder formatter `Logger::print_to_stream`,
  * the sink writer `Logger::log` (the line it assembles and the write /
    flush events it performs; the rendered wall-clock timestamp string is
    a parameter, since `strftime` of the current time is an external
    effect),
  * the configuration state (`log_type`, `output_file_name`,
    `output_buffer`, `is_color_output`, `datetime_format`) and the
    public setters,
  * the six severity operations `trace` / `debug` / `info` / `warn` /
    `error` / `fatal`, whose observable behaviour is returned as the
    configuration state after the call together with the list of events
    performed: stream writes, flushes, sleeps, `exit(EXIT_FAILURE)` and
    `abort()`.
-/

namespace HerrLog

/-! ### LogType (`class LogType`, herrlog.hh)

Each log type is one bit of a `std::uint8_t`; the bitflag value is
modelled as a `Nat` (every value involved is below 256 and the C++
operators never overflow eight bits). -/

def LogType.Trace : Nat := 1
def LogType.Debug : Nat := 2
def LogType.Info : Nat := 4
def LogType.Error : Nat := 8
def LogType.Warn : Nat := 16
def LogType.Fatal : Nat := 32
def LogType.All : Nat := 63
def LogType.None : Nat := 0

/-- `LogType::operator|`: combine two bitflags. -/
def LogType.orOp (a b : Nat) : Nat := a ||| b

/-- `LogType::operator&`: `true` iff the bitwise AND of the two flag
values is nonzero. -/
def LogType.andOp (a b : Nat) : Bool := a &&& b != 0

/-- The six single-bit severity levels of the enum (excluding the
composite values `All` and `None`). -/
def levels : List Nat :=
  [LogType.Trace, LogType.Debug, LogType.Info, LogType.Error,
   LogType.Warn, LogType.Fatal]

/-! ### The placeholder formatter (`Logger::print_to_stream`)

The C++ code is a template recursion over the argument pack: with no
arguments left, the base overload copies the rest of the format string
verbatim (including any remaining `\x7b\x7d` tokens); with at least one
argument it scans the format string and, at the first occurrence of
`'\x7b'` immediately followed by `'\x7d'`, streams the argument's
textual representation and recurses on the format text after the token
with the remaining arguments.  Arguments are modelled by their textual
representation (`String`); format strings by their character list. -/

def print_to_stream : List Char → List String → List Char
  | fmt, [] => fmt
  | '{' :: '}' :: fmtRest, arg :: argsRest =>
      arg.data ++ print_to_stream fmtRest argsRest
  | c :: fmtRest, arg :: argsRest => c :: print_to_stream fmtRest (arg :: argsRest)
  | [], _ :: _ => []

/-- Number of placeholder tokens in a format string, counted the way the
scanner consumes them: an occurrence of `'\x7b'` directly followed by
`'\x7d'`, both characters then being skipped. -/
def countPlaceholders : List Char → Nat
  | '{' :: '}' :: rest => countPlaceholders rest + 1
  | _ :: rest => countPlaceholders rest
  | [] => 0

/-- Modelled from the spec (§4.2 Formatter): scan the format string left
to right; each placeholder token is replaced by the textual
representation of the next unconsumed argument; all other characters are
copied verbatim; a placeholder with no remaining argument is copied to
the output literally. -/
def substituteSpec : List Char → List String → List Char
  | '{' :: '}' :: fmtRest, arg :: argsRest =>
      arg.data ++ substituteSpec fmtRest argsRest
  | '{' :: '}' :: fmtRest, [] => '{' :: '}' :: substituteSpec fmtRest []
  | c :: fmtRest, args => c :: substituteSpec fmtRest args
  | [], _ => []

/-! ### ANSI colors (`namespace ascii_colors`) -/

def reset_color : String := "\x1b[0m"
def bold_red_color : String := "\x1b[1;31m"
def bold_green_color : String := "\x1b[1;32m"
def bold_yellow_color : String := "\x1b[1;33m"
def bold_blue_color : String := "\x1b[1;34m"
def background_red_color : String := "\x1b[41m"
def bold_white_color : String := "\x1b[1;37m"

/-! ### Sinks, events and the logger's static configuration state -/

/-- The object `Logger::output_buffer` can point at: `std::cout`
(console, the default), the owned `Logger::output_file` opened under a
file name, or an arbitrary caller-supplied stream passed to
`set_output_buffer` (identified abstractly by a number). -/
inductive Sink : Type
  | console : Sink
  | file : String → Sink
  | custom : Nat → Sink
deriving DecidableEq

/-- Observable actions a call performs, in order: writing a string to a
sink, flushing a sink, sleeping (`std::this_thread::sleep_for`),
`exit(EXIT_FAILURE)` and `abort()`. -/
inductive Event : Type
  | write : Sink → String → Event
  | flush : Sink → Event
  | sleepSeconds : Nat → Event
  | exitFailure : Event
  | abortProc : Event
deriving DecidableEq

/-- The static data members of `class Logger` (herrlog.hh v1.0, lines
674-681).  The `std::ofstream output_file` handle itself is not part of
the model; whether a requested file opens successfully is an input to
`set_output_file_name`. -/
structure LoggerState : Type where
  log_type : Nat
  output_file_name : String
  output_buffer : Sink
  is_color_output : Bool
  datetime_format : String
deriving DecidableEq

/-- The static initializers: all levels active, no file name, console
output, color on, default datetime format. -/
def initialState : LoggerState :=
  { log_type := LogType.All
    output_file_name := ""
    output_buffer := Sink.console
    is_color_output := true
    datetime_format := "%Y-%m-%d %H:%M:%S" }

/-! ### The sink writer (`Logger::log`) and the severity operations

`Logger::log` renders the current time with `strftime` (modelled by the
parameter `time_string`), assembles the whole line in a
`std::stringstream`, then under the mutex writes the line plus a newline
to `*output_buffer` and flushes it. -/

/-- The string `Logger::log` accumulates in its `stringstream`:
optional color-start, `[`, the level name, a space, the timestamp, `]`,
optional color reset, a space, then the formatted message. -/
def buildLine (st : LoggerState) (name color : String) (fmt : List Char)
    (args : List String) (time_string : String) : String :=
  (if st.is_color_output then color else "") ++ "[" ++ name ++ " " ++
    time_string ++ "]" ++
    (if st.is_color_output then reset_color else "") ++ " " ++
    String.mk (print_to_stream fmt args)

/-- The events `Logger::log` performs: one write of the assembled line
followed by a newline, then one flush, both on the active output
buffer. -/
def log (st : LoggerState) (name color : String) (fmt : List Char)
    (args : List String) (time_string : String) : List Event :=
  [Event.write st.output_buffer (buildLine st name color fmt args time_string ++ "\n"),
   Event.flush st.output_buffer]

/-- `Logger::trace`: logs with label `TRACE` in bold white if the Trace
bit is active, otherwise does nothing. -/
def trace (st : LoggerState) (fmt : List Char) (args : List String)
    (time_string : String) : LoggerState × List Event :=
  if LogType.andOp st.log_type LogType.Trace then
    (st, log st "TRACE" bold_white_color fmt args time_string)
  else (st, [])

/-- `Logger::debug`: logs with label `DEBUG` in bold blue if the Debug
bit is active, otherwise does nothing. -/
def debug (st : LoggerState) (fmt : List Char) (args : List String)
    (time_string : String) : LoggerState × List Event :=
  if LogType.andOp st.log_type LogType.Debug then
    (st, log st "DEBUG" bold_blue_color fmt args time_string)
  else (st, [])

/-- `Logger::info`: if the Info bit is active, first sleeps for one
second (`std::this_thread::sleep_for(std::chrono::seconds(1))`, herrlog.hh
line 619), then logs with label ` INFO` in bold green; otherwise does
nothing. -/
def info (st : LoggerState) (fmt : List Char) (args : List String)
    (time_string : String) : LoggerState × List Event :=
  if LogType.andOp st.log_type LogType.Info then
    (st, Event.sleepSeconds 1 :: log st " INFO" bold_green_color fmt args time_string)
  else (st, [])

/-- `Logger::warn`: logs with label ` WARN` in bold yellow if the Warn
bit is active, otherwise does nothing. -/
def warn (st : LoggerState) (fmt : List Char) (args : List String)
    (time_string : String) : LoggerState × List Event :=
  if LogType.andOp st.log_type LogType.Warn then
    (st, log st " WARN" bold_yellow_color fmt args time_string)
  else (st, [])

/-- `Logger::error`: if the Error bit is active, logs with label `ERROR`
in bold red and then calls `exit(EXIT_FAILURE)`; otherwise does
nothing. -/
def error (st : LoggerState) (fmt : List Char) (args : List String)
    (time_string : String) : LoggerState × List Event :=
  if LogType.andOp st.log_type LogType.Error then
    (st, log st "ERROR" bold_red_color fmt args time_string ++ [Event.exitFailure])
  else (st, [])

/-- `Logger::fatal`: if the Fatal bit is active, logs with label `FATAL`
on red background and then calls `abort()`; otherwise does nothing. -/
def fatal (st : LoggerState) (fmt : List Char) (args : List String)
    (time_string : String) : LoggerState × List Event :=
  if LogType.andOp st.log_type LogType.Fatal then
    (st, log st "FATAL" background_red_color fmt args time_string ++ [Event.abortProc])
  else (st, [])

/-! ### Public configuration setters -/

/-- `Logger::set_type`: replaces the active-level bitflag
unconditionally. -/
def set_type (st : LoggerState) (t : Nat) : LoggerState :=
  { st with log_type := t }

/-- `Logger::set_datetime_format`: replaces the datetime format. -/
def set_datetime_format (st : LoggerState) (fmtStr : String) : LoggerState :=
  { st with datetime_format := fmtStr }

/-- `Logger::set_is_color_output`: sets the color flag. -/
def set_is_color_output (st : LoggerState) (b : Bool) : LoggerState :=
  { st with is_color_output := b }

/-- `Logger::set_output_buffer`: redirects the output-buffer pointer to
the caller-supplied stream; nothing else changes. -/
def set_output_buffer (st : LoggerState) (target : Sink) : LoggerState :=
  { st with output_buffer := target }

/-- `Logger::set_output_file_name`: stores the file name and re-opens
the owned `output_file` on it (the open/close dance on the handle is
summarized by the `openOk` input saying whether the final
`output_file.is_open()` check succeeds).  If the open failed, calls
`Logger::error("Failed to open \x7b\x7d", name)` and returns; only on
success does it point `output_buffer` at the file and clear the color
flag. -/
def set_output_file_name (st : LoggerState) (path : String) (openOk : Bool)
    (time_string : String) : LoggerState × List Event :=
  let st1 := { st with output_file_name := path }
  if openOk then
    ({ st1 with output_buffer := Sink.file path, is_color_output := false }, [])
  else
    error st1 "Failed to open \x7b\x7d".data [path] time_string

/-! ### Formatter lemmas -/

theorem substituteSpec_nil (fmt : List Char) : substituteSpec fmt [] = fmt := by
  induction fmt using countPlaceholders.induct with
  | case1 rest ih =>
      rw [substituteSpec.eq_2, ih]
  | case2 c rest h ih =>
      rw [substituteSpec.eq_3 [] c rest (by intro r a as _ _ hne; cases hne)
            (by intro r hc hr _; exact h r hc hr), ih]
  | case3 => rfl

theorem print_to_stream_eq_substituteSpec (fmt : List Char) (args : List String) :
    print_to_stream fmt args = substituteSpec fmt args := by
  induction fmt, args using print_to_stream.induct with
  | case1 fmt => rw [print_to_stream.eq_1, substituteSpec_nil]
  | case2 fmtRest arg argsRest ih =>
      rw [print_to_stream.eq_2, substituteSpec.eq_1, ih]
  | case3 c fmtRest arg argsRest h ih =>
      rw [print_to_stream.eq_3 c fmtRest arg argsRest h,
          substituteSpec.eq_3 (arg :: argsRest) c fmtRest
            (by intro r a as hc hr _; exact h r hc hr)
            (by intro r _ _ hne; cases hne), ih]
  | case4 head tail => rfl

theorem print_to_stream_take (fmt : List Char) (args : List String)
    (h : countPlaceholders fmt ≤ args.length) :
    print_to_stream fmt args =
      print_to_stream fmt (args.take (countPlaceholders fmt)) := by
  induction fmt, args using print_to_stream.induct with
  | case1 fmt => rw [List.take_nil]
  | case2 fmtRest arg argsRest ih =>
      rw [countPlaceholders.eq_1] at h ⊢
      rw [List.take_succ_cons, print_to_stream.eq_2, print_to_stream.eq_2,
          ih (by simpa using h)]
  | case3 c fmtRest arg argsRest h3 ih =>
      rw [countPlaceholders.eq_2 c fmtRest h3] at h ⊢
      rw [print_to_stream.eq_3 c fmtRest arg argsRest h3, ih h]
      cases hn : countPlaceholders fmtRest with
      | zero =>
          rw [List.take_zero, print_to_stream.eq_1, print_to_stream.eq_1]
      | succ n =>
          rw [List.take_succ_cons,
              print_to_stream.eq_3 c fmtRest arg (argsRest.take n) h3]
  | case4 head tail =>
      rw [countPlaceholders.eq_3, List.take_zero, print_to_stream.eq_4,
          print_to_stream.eq_1]

/-! ### Claim theorems -/

/-- C1: for every format string with exactly `k` placeholder tokens and
every argument list of length `n ≥ k`, the formatter's output equals the
format string with each of the `k` placeholders replaced, left to right,
by the textual representation of the corresponding argument in argument
order (the spec-side substitution applied to the first `k` arguments),
and the `n - k` trailing arguments are consumed nowhere and contribute
nothing: the output is unchanged if they are removed. -/
theorem formatter_substitutes_in_order_drops_trailing
    (fmt : List Char) (args : List String)
    (h : countPlaceholders fmt ≤ args.length) :
    print_to_stream fmt args =
      substituteSpec fmt (args.take (countPlaceholders fmt)) ∧
    print_to_stream fmt args =
      print_to_stream fmt (args.take (countPlaceholders fmt)) := by
  refine ⟨?_, print_to_stream_take fmt args h⟩
  rw [print_to_stream_take fmt args h, print_to_stream_eq_substituteSpec]

theorem formatter_substitutes_in_order_drops_trailing_witness :
    countPlaceholders "a \x7b\x7d b \x7b\x7d!".data ≤
      (["1", "2", "3"] : List String).length ∧
    (print_to_stream "a \x7b\x7d b \x7b\x7d!".data ["1", "2", "3"] =
      substituteSpec "a \x7b\x7d b \x7b\x7d!".data
        ((["1", "2", "3"] : List String).take
          (countPlaceholders "a \x7b\x7d b \x7b\x7d!".data)) ∧
    print_to_stream "a \x7b\x7d b \x7b\x7d!".data ["1", "2", "3"] =
      print_to_stream "a \x7b\x7d b \x7b\x7d!".data
        ((["1", "2", "3"] : List String).take
          (countPlaceholders "a \x7b\x7d b \x7b\x7d!".data))) :=
  ⟨by decide,
   formatter_substitutes_in_order_drops_trailing
     "a \x7b\x7d b \x7b\x7d!".data ["1", "2", "3"] (by decide)⟩

/-- C2: for every format string with exactly `k` placeholder tokens and
every argument list of length `n < k`, the formatter's output equals the
spec-side substitution on the same arguments: the first `n` placeholders
are substituted in order and the remaining `k - n` placeholder tokens
are copied to the output verbatim (the spec-side function's leftover
case); the formatter is a total function, so no error is raised. -/
theorem formatter_copies_unmatched_placeholders
    (fmt : List Char) (args : List String)
    (h : args.length < countPlaceholders fmt) :
    print_to_stream fmt args = substituteSpec fmt args :=
  print_to_stream_eq_substituteSpec fmt args

theorem formatter_copies_unmatched_placeholders_witness :
    (["x"] : List String).length < countPlaceholders "\x7b\x7d and \x7b\x7d".data ∧
    print_to_stream "\x7b\x7d and \x7b\x7d".data ["x"] =
      substituteSpec "\x7b\x7d and \x7b\x7d".data ["x"] :=
  ⟨by decide,
   formatter_copies_unmatched_placeholders "\x7b\x7d and \x7b\x7d".data ["x"]
     (by decide)⟩

set_option maxRecDepth 8192 in
/-- C3: for every active-level mask `M` (an eight-bit value) and every
single-bit severity level `L` of the enum, the membership test performed
by `LogType::operator&` on the stored mask and the level returns true
iff the bit pattern of `L` intersects the bit pattern of `M`,
equivalently iff `L`'s bit is a subset of `M`'s bits. -/
theorem level_membership_test (M L : Nat) (hM : M < 256) (hL : L ∈ levels) :
    (LogType.andOp M L = true ↔ L &&& M ≠ 0) ∧
    (LogType.andOp M L = true ↔ L &&& M = L) := by
  fin_cases hL <;> (revert hM; revert M; decide)

theorem level_membership_test_witness :
    (9 : Nat) < 256 ∧ LogType.Error ∈ levels ∧
    ((LogType.andOp 9 LogType.Error = true ↔ LogType.Error &&& 9 ≠ 0) ∧
     (LogType.andOp 9 LogType.Error = true ↔ LogType.Error &&& 9 = LogType.Error)) :=
  ⟨by decide, by decide, level_membership_test 9 LogType.Error (by decide) (by decide)⟩

/-- C10: placeholder substitution scans only the original format string,
never the substituted text: when the next argument's textual
representation itself contains the two-character token (it decomposes as
`u ++ '\x7b' :: '\x7d' :: v`), the formatter still emits that text
verbatim — token included — consumes no further argument for it, and
resumes scanning in the format string immediately after the consumed
placeholder, with exactly the remaining arguments. -/
theorem formatter_never_rescans_substituted_text
    (t : List Char) (a : String) (rest : List String) (u v : List Char)
    (h : a.data = u ++ '{' :: '}' :: v) :
    print_to_stream ('{' :: '}' :: t) (a :: rest) =
      (u ++ '{' :: '}' :: v) ++ print_to_stream t rest := by
  rw [print_to_stream.eq_2, h]

theorem formatter_never_rescans_substituted_text_witness :
    "x\x7b\x7dy".data = ['x'] ++ '{' :: '}' :: ['y'] ∧
    print_to_stream ('{' :: '}' :: " end \x7b\x7d".data) ["x\x7b\x7dy", "z"] =
      (['x'] ++ '{' :: '}' :: ['y']) ++ print_to_stream " end \x7b\x7d".data ["z"] :=
  ⟨by decide,
   formatter_never_rescans_substituted_text " end \x7b\x7d".data "x\x7b\x7dy" ["z"]
     ['x'] ['y'] (by decide)⟩

/-- C4: whenever the Error level is active, `error(format, args...)`
writes the formatted log line to the active sink and flushes it, and
only then terminates the process with `exit(EXIT_FAILURE)`; whenever the
Fatal level is active, `fatal(format, args...)` writes and flushes the
formatted line and only then calls `abort()`.  In both cases the write
and the flush precede the terminating event, so the message reaches the
output target before the process ends. -/
theorem error_exits_fatal_aborts_after_write
    (st : LoggerState) (fmt : List Char) (args : List String) (t : String) :
    (LogType.andOp st.log_type LogType.Error = true →
      error st fmt args t =
        (st, [Event.write st.output_buffer
                (buildLine st "ERROR" bold_red_color fmt args t ++ "\n"),
              Event.flush st.output_buffer, Event.exitFailure])) ∧
    (LogType.andOp st.log_type LogType.Fatal = true →
      fatal st fmt args t =
        (st, [Event.write st.output_buffer
                (buildLine st "FATAL" background_red_color fmt args t ++ "\n"),
              Event.flush st.output_buffer, Event.abortProc])) := by
  constructor
  · intro hE; simp [error, log, hE]
  · intro hF; simp [fatal, log, hF]

theorem error_exits_fatal_aborts_after_write_witness :
    LogType.andOp
      ({ initialState with
          log_type := LogType.orOp LogType.Error LogType.Info } :
        LoggerState).log_type LogType.Error = true ∧
    LogType.andOp
      ({ initialState with log_type := LogType.Fatal } :
        LoggerState).log_type LogType.Fatal = true ∧
    error { initialState with
        log_type := LogType.orOp LogType.Error LogType.Info } "x".data [] "T" =
      ({ initialState with
          log_type := LogType.orOp LogType.Error LogType.Info },
       [Event.write
          ({ initialState with
              log_type := LogType.orOp LogType.Error LogType.Info } :
            LoggerState).output_buffer
          (buildLine
            { initialState with
                log_type := LogType.orOp LogType.Error LogType.Info }
            "ERROR" bold_red_color "x".data [] "T" ++ "\n"),
        Event.flush
          ({ initialState with
              log_type := LogType.orOp LogType.Error LogType.Info } :
            LoggerState).output_buffer,
        Event.exitFailure]) ∧
    fatal { initialState with log_type := LogType.Fatal } "x".data [] "T" =
      ({ initialState with log_type := LogType.Fatal },
       [Event.write
          ({ initialState with log_type := LogType.Fatal } :
            LoggerState).output_buffer
          (buildLine { initialState with log_type := LogType.Fatal }
            "FATAL" background_red_color "x".data [] "T" ++ "\n"),
        Event.flush
          ({ initialState with log_type := LogType.Fatal } :
            LoggerState).output_buffer,
        Event.abortProc]) :=
  ⟨by decide, by decide,
   (error_exits_fatal_aborts_after_write
     { initialState with log_type := LogType.orOp LogType.Error LogType.Info }
     "x".data [] "T").1 (by decide),
   (error_exits_fatal_aborts_after_write
     { initialState with log_type := LogType.Fatal }
     "x".data [] "T").2 (by decide)⟩

/-- C5 counterexample: the claim says a failed `set_output_file_name`
emits an Error-level message reporting the failure, which terminates the
process.  But the emitted message goes through `Logger::error`, which
does nothing when the Error bit is inactive: with `log_type = None` and
a failing open, the call performs no event at all — no message is
written and the process is not terminated. -/
theorem set_output_file_name_failure_counterexample :
    (set_output_file_name { initialState with log_type := LogType.None }
        "out.log" false "T").2 = [] ∧
    Event.exitFailure ∉
      (set_output_file_name { initialState with log_type := LogType.None }
        "out.log" false "T").2 := by
  refine ⟨by decide, by decide⟩

/-- C5 (amended): if `set_output_file_name` fails to open the file, it
reports the failure through the Error-level operation: when the Error
level is active this writes and flushes the message `Failed to open
<path>` and terminates the process via `exit(EXIT_FAILURE)`; when the
Error level is inactive the call returns having emitted nothing.  In
both cases the function returns no error code (its only outputs are the
new state and the events), and on failure the output target and the
color flag are left unchanged — output is never redirected to the
file. -/
theorem set_output_file_name_failure_reports_via_error
    (st : LoggerState) (path : String) (t : String) :
    (LogType.andOp st.log_type LogType.Error = true →
      (set_output_file_name st path false t).2 =
        [Event.write st.output_buffer
           (buildLine st "ERROR" bold_red_color "Failed to open \x7b\x7d".data
              [path] t ++ "\n"),
         Event.flush st.output_buffer, Event.exitFailure]) ∧
    (LogType.andOp st.log_type LogType.Error = false →
      (set_output_file_name st path false t).2 = []) ∧
    (set_output_file_name st path false t).1.output_buffer = st.output_buffer ∧
    (set_output_file_name st path false t).1.is_color_output = st.is_color_output := by
  refine ⟨?_, ?_, ?_, ?_⟩
  · intro h; simp [set_output_file_name, error, log, h, buildLine]
  · intro h; simp [set_output_file_name, error, h]
  · by_cases h : LogType.andOp st.log_type LogType.Error <;>
      simp [set_output_file_name, error, log, h]
  · by_cases h : LogType.andOp st.log_type LogType.Error <;>
      simp [set_output_file_name, error, log, h]

theorem set_output_file_name_failure_reports_via_error_witness :
    LogType.andOp initialState.log_type LogType.Error = true ∧
    (set_output_file_name initialState "out.log" false "T").2 =
      [Event.write initialState.output_buffer
         (buildLine initialState "ERROR" bold_red_color
            "Failed to open \x7b\x7d".data ["out.log"] "T" ++ "\n"),
       Event.flush initialState.output_buffer, Event.exitFailure] :=
  ⟨by decide,
   (set_output_file_name_failure_reports_via_error initialState "out.log" "T").1
     (by decide)⟩

/-- C6: exactly one output target is active at a time (the single
`output_buffer` pointer).  After a successful `set_output_file_name`,
the color flag is cleared and the output buffer points at the opened
file, so every subsequent log write and flush targets that file; after
`set_output_buffer(target)`, the output buffer points at the supplied
target — overriding any previous target — while the color flag keeps
its previous value. -/
theorem single_output_target
    (st : LoggerState) (path : String) (t tm : String) (target : Sink)
    (name color : String) (fmt : List Char) (args : List String) :
    ((set_output_file_name st path true t).1.output_buffer = Sink.file path ∧
     (set_output_file_name st path true t).1.is_color_output = false ∧
     log (set_output_file_name st path true t).1 name color fmt args tm =
       [Event.write (Sink.file path)
          (buildLine (set_output_file_name st path true t).1 name color fmt args tm
            ++ "\n"),
        Event.flush (Sink.file path)]) ∧
    ((set_output_buffer st target).output_buffer = target ∧
     (set_output_buffer st target).is_color_output = st.is_color_output ∧
     log (set_output_buffer st target) name color fmt args tm =
       [Event.write target
          (buildLine (set_output_buffer st target) name color fmt args tm ++ "\n"),
        Event.flush target]) := by
  refine ⟨⟨?_, ?_, ?_⟩, ⟨?_, ?_, ?_⟩⟩ <;>
    simp [set_output_file_name, set_output_buffer, log]

/-- C7: for each severity operation, if the corresponding level bit is
not in the active-level set, the call returns immediately with no
observable effect: the event list is empty (nothing written to any sink,
no sleep, no process termination) and the configuration state is
returned unchanged. -/
theorem inactive_level_no_effect
    (st : LoggerState) (fmt : List Char) (args : List String) (t : String) :
    (LogType.andOp st.log_type LogType.Trace = false → trace st fmt args t = (st, [])) ∧
    (LogType.andOp st.log_type LogType.Debug = false → debug st fmt args t = (st, [])) ∧
    (LogType.andOp st.log_type LogType.Info = false → info st fmt args t = (st, [])) ∧
    (LogType.andOp st.log_type LogType.Warn = false → warn st fmt args t = (st, [])) ∧
    (LogType.andOp st.log_type LogType.Error = false → error st fmt args t = (st, [])) ∧
    (LogType.andOp st.log_type LogType.Fatal = false → fatal st fmt args t = (st, [])) := by
  refine ⟨?_, ?_, ?_, ?_, ?_, ?_⟩ <;>
    (intro h; simp [trace, debug, info, warn, error, fatal, h])

theorem inactive_level_no_effect_witness :
    trace { initialState with log_type := LogType.None } "x".data [] "T" =
      ({ initialState with log_type := LogType.None }, []) ∧
    debug { initialState with log_type := LogType.None } "x".data [] "T" =
      ({ initialState with log_type := LogType.None }, []) ∧
    info { initialState with log_type := LogType.None } "x".data [] "T" =
      ({ initialState with log_type := LogType.None }, []) ∧
    warn { initialState with log_type := LogType.None } "x".data [] "T" =
      ({ initialState with log_type := LogType.None }, []) ∧
    error { initialState with log_type := LogType.None } "x".data [] "T" =
      ({ initialState with log_type := LogType.None }, []) ∧
    fatal { initialState with log_type := LogType.None } "x".data [] "T" =
      ({ initialState with log_type := LogType.None }, []) :=
  ⟨(inactive_level_no_effect _ "x".data [] "T").1 (by decide),
   (inactive_level_no_effect _ "x".data [] "T").2.1 (by decide),
   (inactive_level_no_effect _ "x".data [] "T").2.2.1 (by decide),
   (inactive_level_no_effect _ "x".data [] "T").2.2.2.1 (by decide),
   (inactive_level_no_effect _ "x".data [] "T").2.2.2.2.1 (by decide),
   (inactive_level_no_effect _ "x".data [] "T").2.2.2.2.2 (by decide)⟩

/-- C8: every emitted log line has the exact shape: optional color-start
code (present only when color output is enabled), then `[`, the level
name, a space, the timestamp, `]`, then optional reset code (only with
color), a single space, the fully formatted message and a terminating
newline.  With color disabled the single write of a log call is exactly
`[<LEVEL> <timestamp>] <message>` followed by a newline, and — provided
the level name, timestamp and message themselves contain no escape
character — the line contains no ANSI escape sequence. -/
theorem log_line_shape
    (st : LoggerState) (name color t : String) (fmt : List Char)
    (args : List String)
    (hname : '\x1b' ∉ name.data) (ht : '\x1b' ∉ t.data)
    (hmsg : '\x1b' ∉ print_to_stream fmt args) :
    log st name color fmt args t =
      [Event.write st.output_buffer
         ((if st.is_color_output then color else "") ++ "[" ++ name ++ " " ++
           t ++ "]" ++ (if st.is_color_output then reset_color else "") ++ " " ++
           String.mk (print_to_stream fmt args) ++ "\n"),
       Event.flush st.output_buffer] ∧
    (st.is_color_output = false →
      log st name color fmt args t =
        [Event.write st.output_buffer
           ("[" ++ name ++ " " ++ t ++ "]" ++ " " ++
             String.mk (print_to_stream fmt args) ++ "\n"),
         Event.flush st.output_buffer] ∧
      '\x1b' ∉ ("[" ++ name ++ " " ++ t ++ "]" ++ " " ++
          String.mk (print_to_stream fmt args) ++ "\n").data) := by
  refine ⟨rfl, ?_⟩
  intro hc
  constructor
  · simp [log, buildLine, hc]
  · intro hmem
    simp only [String.data_append, List.mem_append] at hmem
    rcases hmem with ((((((h1 | h2) | h3) | h4) | h5) | h6) | h7) | h8
    · exact absurd h1 (by decide)
    · exact hname h2
    · exact absurd h3 (by decide)
    · exact ht h4
    · exact absurd h5 (by decide)
    · exact absurd h6 (by decide)
    · exact hmsg h7
    · exact absurd h8 (by decide)

theorem log_line_shape_witness :
    '\x1b' ∉ "TRACE".data ∧
    '\x1b' ∉ "2024-01-02 03:04:05".data ∧
    '\x1b' ∉ print_to_stream "hello \x7b\x7d".data ["world"] ∧
    (log { initialState with is_color_output := false } "TRACE" bold_white_color
        "hello \x7b\x7d".data ["world"] "2024-01-02 03:04:05" =
      [Event.write ({ initialState with is_color_output := false } :
            LoggerState).output_buffer
         ((if ({ initialState with is_color_output := false } :
               LoggerState).is_color_output then bold_white_color else "") ++
           "[" ++ "TRACE" ++ " " ++ "2024-01-02 03:04:05" ++ "]" ++
           (if ({ initialState with is_color_output := false } :
               LoggerState).is_color_output then reset_color else "") ++ " " ++
           String.mk (print_to_stream "hello \x7b\x7d".data ["world"]) ++ "\n"),
       Event.flush ({ initialState with is_color_output := false } :
            LoggerState).output_buffer] ∧
    (({ initialState with is_color_output := false } :
        LoggerState).is_color_output = false →
      log { initialState with is_color_output := false } "TRACE" bold_white_color
          "hello \x7b\x7d".data ["world"] "2024-01-02 03:04:05" =
        [Event.write ({ initialState with is_color_output := false } :
              LoggerState).output_buffer
           ("[" ++ "TRACE" ++ " " ++ "2024-01-02 03:04:05" ++ "]" ++ " " ++
             String.mk (print_to_stream "hello \x7b\x7d".data ["world"]) ++ "\n"),
         Event.flush ({ initialState with is_color_output := false } :
              LoggerState).output_buffer] ∧
      '\x1b' ∉ ("[" ++ "TRACE" ++ " " ++ "2024-01-02 03:04:05" ++ "]" ++ " " ++
          String.mk (print_to_stream "hello \x7b\x7d".data ["world"]) ++
          "\n").data)) :=
  ⟨by decide, by decide, by decide,
   log_line_shape { initialState with is_color_output := false } "TRACE"
     bold_white_color "2024-01-02 03:04:05" "hello \x7b\x7d".data ["world"]
     (by decide) (by decide) (by decide)⟩

/-- C9: the claim states that no severity operation inserts any sleeping
or delay of its own, but `Logger::info` (herrlog.hh line 619) executes
`std::this_thread::sleep_for(std::chrono::seconds(1))` before logging
whenever the Info level is active: at the default state, the first event
of an `info` call is a one-second sleep. -/
theorem info_sleeps_before_logging :
    (info initialState "x".data [] "T").2.head? =
      some (Event.sleepSeconds 1) ∧
    (trace initialState "x".data [] "T").2.head? =
      some (Event.write Sink.console
        (buildLine initialState "TRACE" bold_white_color "x".data [] "T" ++ "\n")) := by
  constructor
  · rfl
  · rfl

end HerrLog
